import Mathlib

set_option maxRecDepth 8192

/-!
Shallow embedding of the lead-workflow core of the Universal-HRM server:
the Drizzle storage layer (class DatabaseStorage of the server storage
module) and the Express route handlers for PUT /api/leads/:id,
DELETE /api/leads/:id and POST /api/leads/:id/assign (registerRoutes),
over an explicit database state.  Timestamps (Postgres now()) are
modelled as naturals supplied by the caller; Postgres row identities
generated for lead_history rows are modelled by a counter in the state.
-/

namespace UHRM

/-- A row of the users table (shared/schema.ts).  Only the columns the
modelled routes read are kept: id, role and isActive (getUsersByRole
filters on role and isActive; the routes read role off the fetched user). -/
structure User where
  id : String
  role : String
  isActive : Bool
deriving DecidableEq, Repr

/-- A row of the leads table (shared/schema.ts), with every column of the
table.  Nullable text / date / time / decimal columns are Option String
(decimals are handled as strings throughout the source as well). -/
structure Lead where
  id : Nat
  name : Option String := none
  email : Option String := none
  phone : Option String := none
  location : Option String := none
  degree : Option String := none
  domain : Option String := none
  sessionDays : Option String := none
  walkinDate : Option String := none
  walkinTime : Option String := none
  timing : Option String := none
  currentOwnerId : Option String := none
  sourceManagerId : Option String := none
  status : String := "new"
  isActive : Bool := true
  notes : Option String := none
  yearOfPassing : Option String := none
  collegeName : Option String := none
  registrationAmount : Option String := none
  pendingAmount : Option String := none
  createdAt : Nat := 0
  updatedAt : Nat := 0
deriving DecidableEq, Repr

/-- The update object built by the PUT /api/leads/:id handler and passed
to DatabaseStorage.updateLead (a Partial of the lead row).  A field value
of none means the key is absent.  For the two decimal fields the route
itself converts the submitted string, so their present value is
Option String (some none = set the column to null).  currentOwnerId and
isActive appear only in the hand-off call inside the route.
changeReason is carried along (it is a key of the validated body, kept
inside changeData's updates object) but is not a leads column, so
applying the update ignores it, as Drizzle ignores unknown keys. -/
structure Updates where
  status : Option String := none
  notes : Option String := none
  changeReason : Option String := none
  yearOfPassing : Option String := none
  collegeName : Option String := none
  registrationAmount : Option (Option String) := none
  pendingAmount : Option (Option String) := none
  name : Option String := none
  email : Option String := none
  phone : Option String := none
  location : Option String := none
  degree : Option String := none
  domain : Option String := none
  sessionDays : Option String := none
  timing : Option String := none
  walkinDate : Option String := none
  walkinTime : Option String := none
  currentOwnerId : Option (Option String) := none
  isActive : Option Bool := none
deriving DecidableEq, Repr

/-- One element of the changedFields array built by the PUT handler for
non-status edits. -/
structure FieldChange where
  field : String
  oldValue : Option String
  newValue : Option String
deriving DecidableEq, Repr

/-- The jsonb changeData payloads the source writes into lead_history:
assignment (DatabaseStorage.assignLead), the stringified updates object of
a status change, a hand-off descriptor, a changedFields map, the
unassignment descriptor of the HR delete branch, and the deletion
descriptor of the manager delete branch. -/
inductive ChangeData where
  | assignment (previousOwner : Option String) (newOwner : String)
  | statusUpdate (updates : Updates)
  | handoff (handoffType : String) (previousOwner : Option String) (newOwner : String)
  | fieldChanges (changedFields : List FieldChange) (updates : Updates)
  | unassigned (previousOwner : Option String) (releasedBy : String) (releasedAt : Nat)
  | deleted (deletedLead : Lead) (deletedBy : String) (deletedAt : Nat)
deriving DecidableEq, Repr

/-- A row of the lead_history table (shared/schema.ts).  id is the
generated identity (monotonically increasing), changedAt the defaultNow()
timestamp. -/
structure HistoryEntry where
  id : Nat
  leadId : Nat
  fromUserId : Option String
  toUserId : Option String
  previousStatus : Option String
  newStatus : Option String
  changeReason : Option String
  changeData : ChangeData
  changedByUserId : String
  changedAt : Nat
deriving DecidableEq, Repr

/-- The data of a lead_history insert before the generated columns
(id, changedAt) are attached. -/
structure HistoryInput where
  leadId : Nat
  fromUserId : Option String
  toUserId : Option String
  previousStatus : Option String
  newStatus : Option String
  changeReason : Option String
  changeData : ChangeData
  changedByUserId : String
deriving DecidableEq, Repr

/-- A row of the notifications table (the columns the routes write). -/
structure Notif where
  userId : String
  title : String
  message : String
  ntype : String
  relatedLeadId : Option Nat
deriving DecidableEq, Repr

/-- The database state: the tables the modelled flows touch, plus the
identity counter for lead_history rows. -/
structure DB where
  users : List User
  leads : List Lead
  history : List HistoryEntry
  notifs : List Notif
  nextHistoryId : Nat
deriving DecidableEq, Repr

/-- DatabaseStorage.getUser: select from users where id = id. -/
def getUser (db : DB) (uid : String) : Option User :=
  db.users.find? (fun u => u.id == uid)

/-- DatabaseStorage.getLead: select from leads where id = id. -/
def getLead (db : DB) (lid : Nat) : Option Lead :=
  db.leads.find? (fun l => l.id == lid)

/-- DatabaseStorage.getUsersByRole: select from users where role = role
and isActive = true.  Row order of the underlying table is the list
order of db.users (creation order), which the query preserves. -/
def getUsersByRole (db : DB) (role : String) : List User :=
  db.users.filter (fun u => u.role == role && u.isActive)

/-- Sanitised assignment in DatabaseStorage.updateLead for the fields it
converts: an empty-string value becomes null. -/
def setSan (uv : Option String) (old : Option String) : Option String :=
  match uv with
  | none => old
  | some s => if s = "" then none else some s

/-- Plain assignment for the fields updateLead does not sanitise. -/
def setRaw (uv : Option String) (old : Option String) : Option String :=
  match uv with
  | none => old
  | some s => some s

/-- Assignment for registrationAmount: route-parsed value, with
updateLead's empty-string sanitisation on top. -/
def setAmtSan (uv : Option (Option String)) (old : Option String) : Option String :=
  match uv with
  | none => old
  | some (some s) => if s = "" then none else some s
  | some none => none

/-- Assignment for pendingAmount (not in updateLead's sanitised list). -/
def setAmtRaw (uv : Option (Option String)) (old : Option String) : Option String :=
  match uv with
  | none => old
  | some v => v

/-- The row produced by DatabaseStorage.updateLead for a matched lead:
sanitise empty strings to null for walkinDate, walkinTime, phone, domain,
notes, sessionDays, yearOfPassing, collegeName and registrationAmount,
set every present field, and set updatedAt to the current time. -/
def applyUpdates (l : Lead) (u : Updates) (t : Nat) : Lead :=
  { l with
    name := setRaw u.name l.name
    email := setRaw u.email l.email
    phone := setSan u.phone l.phone
    location := setRaw u.location l.location
    degree := setRaw u.degree l.degree
    domain := setSan u.domain l.domain
    sessionDays := setSan u.sessionDays l.sessionDays
    walkinDate := setSan u.walkinDate l.walkinDate
    walkinTime := setSan u.walkinTime l.walkinTime
    timing := setRaw u.timing l.timing
    notes := setSan u.notes l.notes
    yearOfPassing := setSan u.yearOfPassing l.yearOfPassing
    collegeName := setSan u.collegeName l.collegeName
    registrationAmount := setAmtSan u.registrationAmount l.registrationAmount
    pendingAmount := setAmtRaw u.pendingAmount l.pendingAmount
    currentOwnerId := (match u.currentOwnerId with | none => l.currentOwnerId | some v => v)
    status := u.status.getD l.status
    isActive := u.isActive.getD l.isActive
    updatedAt := t }

/-- DatabaseStorage.updateLead: update leads set ... where id = id,
returning the updated row. -/
def updateLeadS (db : DB) (lid : Nat) (u : Updates) (t : Nat) : DB × Option Lead :=
  ({ db with leads := db.leads.map (fun l => if l.id = lid then applyUpdates l u t else l) },
   (db.leads.find? (fun l => l.id == lid)).map (fun l => applyUpdates l u t))

/-- DatabaseStorage.createLeadHistory: insert into lead_history, with the
generated identity and the defaultNow() timestamp. -/
def createLeadHistoryS (db : DB) (h : HistoryInput) (t : Nat) : DB :=
  { db with
    history := db.history ++
      [{ id := db.nextHistoryId, leadId := h.leadId, fromUserId := h.fromUserId,
         toUserId := h.toUserId, previousStatus := h.previousStatus,
         newStatus := h.newStatus, changeReason := h.changeReason,
         changeData := h.changeData, changedByUserId := h.changedByUserId,
         changedAt := t }]
    nextHistoryId := db.nextHistoryId + 1 }

/-- DatabaseStorage.createNotification. -/
def createNotifS (db : DB) (n : Notif) : DB :=
  { db with notifs := db.notifs ++ [n] }

/-- All lead_history rows of one lead, in table (insertion) order. -/
def historyForLead (db : DB) (lid : Nat) : List HistoryEntry :=
  db.history.filter (fun e => e.leadId == lid)

/-- JavaScript's x || d on an optional string: the default replaces both
an absent value and the empty string (falsy). -/
def jsOr (v : Option String) (d : String) : String :=
  match v with
  | none => d
  | some s => if s = "" then d else s

/-! ### Request-body validation of PUT /api/leads/:id (zod schemas) -/

/-- The raw JSON body of a PUT /api/leads/:id request, restricted to the
keys either zod schema knows; a key outside both schemas is stripped by
zod's default (non-strict) object parsing no matter the role, so it
cannot influence the handler and is not modelled. -/
structure Body where
  status : Option String := none
  notes : Option String := none
  changeReason : Option String := none
  yearOfPassing : Option String := none
  collegeName : Option String := none
  registrationAmount : Option String := none
  pendingAmount : Option String := none
  name : Option String := none
  email : Option String := none
  phone : Option String := none
  location : Option String := none
  degree : Option String := none
  domain : Option String := none
  sessionDays : Option String := none
  timing : Option String := none
  walkinDate : Option String := none
  walkinTime : Option String := none
deriving DecidableEq, Repr

/-- The status enum of baseUpdateSchema. -/
def statusEnum : List String :=
  ["new", "scheduled", "completed", "not_interested", "pending", "ready_for_class",
   "not_available", "no_show", "reschedule", "pending_but_ready"]

/-- The sessionDays enum of managerUpdateSchema. -/
def sessionDaysEnum : List String := ["M,W,F", "T,T,S", "daily", "weekend", "custom"]

/-- A present optional value must satisfy the check. -/
def optOk (v : Option String) (p : String → Bool) : Bool :=
  match v with
  | none => true
  | some s => p s

/-- Abstraction of zod's z.string().email() format check.  The exact
format grammar is irrelevant to every claim; only that some strings pass
and the handler rejects the rest. -/
def emailFormatOk (s : String) : Bool :=
  s.contains '@'

/-- Validation performed by baseUpdateSchema: only the status enum is
constrained; every other base field is a plain optional string. -/
def zodBaseOk (b : Body) : Bool :=
  optOk b.status (fun s => statusEnum.contains s)

/-- Validation performed by managerUpdateSchema on top of the base
schema: name min length 1, email format, sessionDays enum or "". -/
def zodManagerOk (b : Body) : Bool :=
  zodBaseOk b &&
  optOk b.name (fun s => s.length ≥ 1) &&
  optOk b.email emailFormatOk &&
  optOk b.sessionDays (fun s => sessionDaysEnum.contains s || s == "")

/-- zod's default object parsing strips keys the schema does not declare:
for a non-elevated role the manager-only fields are removed from the
parsed output (not rejected). -/
def stripToBase (b : Body) : Body :=
  { status := b.status, notes := b.notes, changeReason := b.changeReason,
    yearOfPassing := b.yearOfPassing, collegeName := b.collegeName,
    registrationAmount := b.registrationAmount, pendingAmount := b.pendingAmount }

/-- parseFloat followed by toString as used by the handler on the two
amount fields, modelled on decimal-numeral inputs: a nonempty digit
string parses to itself, anything else is treated as NaN.  (parseFloat's
full grammar is irrelevant to the claims, which never submit a
non-integer amount.) -/
def parseFloatToString (s : String) : Option String :=
  if s ≠ "" && s.toList.all Char.isDigit then some s else none

/-- The handler's conversion of one submitted amount string: absent stays
absent, "" becomes null, a parseable number becomes its canonical string,
anything else is a 400 with the given message. -/
def parseAmount (v : Option String) (msg : String) : Except String (Option (Option String)) :=
  match v with
  | none => Except.ok none
  | some "" => Except.ok (some none)
  | some s =>
    match parseFloatToString s with
    | some n => Except.ok (some (some n))
    | none => Except.error msg

/-- The full body processing of PUT /api/leads/:id: pick the schema by
role (managers and admins get the extended schema, everyone else the
base schema, with manager-only keys stripped), run the zod validation,
then convert the two amount fields. -/
def routeParse (role : String) (b : Body) : Except String Updates :=
  let elevated := role = "manager" ∨ role = "admin"
  let b1 := if elevated then b else stripToBase b
  if (if elevated then zodManagerOk b1 else zodBaseOk b1) then
    match parseAmount b1.registrationAmount "Invalid registration amount format" with
    | Except.error m => Except.error m
    | Except.ok ra =>
      match parseAmount b1.pendingAmount "Invalid pending amount format" with
      | Except.error m => Except.error m
      | Except.ok pa =>
        Except.ok
          { status := b1.status, notes := b1.notes, changeReason := b1.changeReason,
            yearOfPassing := b1.yearOfPassing, collegeName := b1.collegeName,
            registrationAmount := ra, pendingAmount := pa,
            name := b1.name, email := b1.email, phone := b1.phone,
            location := b1.location, degree := b1.degree, domain := b1.domain,
            sessionDays := b1.sessionDays, timing := b1.timing,
            walkinDate := b1.walkinDate, walkinTime := b1.walkinTime }
  else Except.error "Invalid request body"

/-! ### The PUT /api/leads/:id handler -/

/-- Outcome of a modelled route handler. -/
inductive RouteResult where
  | ok
  | badRequest (msg : String)
  | notFound
  | forbidden
  | conflict
  | serverError
deriving DecidableEq, Repr

/-- The ordered field list the handler diffs for a non-status edit. -/
def nonStatusFields : List String :=
  ["name", "email", "phone", "location", "degree", "domain", "sessionDays",
   "timing", "walkinDate", "walkinTime", "notes"]

/-- One step of the changedFields loop: the field is recorded when the
submitted value is present and differs (JavaScript !==) from the stored
value. -/
def diffField (f : String) (uv : Option String) (lv : Option String) : List FieldChange :=
  match uv with
  | none => []
  | some v => if some v ≠ lv then [{ field := f, oldValue := lv, newValue := some v }] else []

/-- The changedFields array computed by the handler over
nonStatusFields, in that order, against the lead row read before the
update. -/
def computeChangedFields (u : Updates) (l : Lead) : List FieldChange :=
  diffField "name" u.name l.name ++
  diffField "email" u.email l.email ++
  diffField "phone" u.phone l.phone ++
  diffField "location" u.location l.location ++
  diffField "degree" u.degree l.degree ++
  diffField "domain" u.domain l.domain ++
  diffField "sessionDays" u.sessionDays l.sessionDays ++
  diffField "timing" u.timing l.timing ++
  diffField "walkinDate" u.walkinDate l.walkinDate ++
  diffField "walkinTime" u.walkinTime l.walkinTime ++
  diffField "notes" u.notes l.notes

/-- The Partial update of the hand-off reassignment inside the PUT
handler: set the new owner, force the status, keep the lead active. -/
def handoffUpdates (ownerId : String) (st : String) : Updates :=
  { currentOwnerId := some (some ownerId), status := some st, isActive := some true }

/-- The else arm of the handler: no status change submitted (or the
submitted status equals the stored one).  db1 is the state after the
unconditional updateLead call; cl is the lead row read before it. -/
def nonStatusBranch (db1 : DB) (cl : Lead) (u : Updates) (userId : String) (lid : Nat)
    (t : Nat) : RouteResult × DB × List DB :=
  let cf := computeChangedFields u cl
  if cf.isEmpty then (RouteResult.ok, db1, [db1])
  else
    let db2 := createLeadHistoryS db1
      { leadId := lid, fromUserId := cl.currentOwnerId, toUserId := cl.currentOwnerId,
        previousStatus := some cl.status, newStatus := some cl.status,
        changeReason := some (jsOr u.changeReason "Lead information updated"),
        changeData := ChangeData.fieldChanges cf u, changedByUserId := userId } t
    (RouteResult.ok, db2, [db1, db2])

/-- The status-change arm of the handler: write the primary history
entry, then run the hand-off rules for status "completed".  lead1name is
the name of the row returned by the first updateLead call (used in the
notification message; JavaScript renders a null name as "null"). -/
def statusBranch (db1 : DB) (cl : Lead) (u : Updates) (s : String) (userRole userId : String)
    (lid : Nat) (lead1name : String) (time : Nat → Nat) : RouteResult × DB × List DB :=
  let db2 := createLeadHistoryS db1
    { leadId := lid, fromUserId := cl.currentOwnerId, toUserId := cl.currentOwnerId,
      previousStatus := some cl.status, newStatus := some s,
      changeReason := some (jsOr u.changeReason "Status updated"),
      changeData := ChangeData.statusUpdate u, changedByUserId := userId } (time 1)
  if s = "completed" then
    if userRole = "hr" then
      match getUsersByRole db2 "accounts" with
      | [] => (RouteResult.ok, db2, [db1, db2])
      | a :: _ =>
        let db3 := (updateLeadS db2 lid (handoffUpdates a.id "pending") (time 2)).1
        let db4 := createLeadHistoryS db3
          { leadId := lid, fromUserId := cl.currentOwnerId, toUserId := some a.id,
            previousStatus := some "completed", newStatus := some "pending",
            changeReason := some "Lead completed by HR and forwarded to Accounts team",
            changeData := ChangeData.handoff "HR_to_Accounts" cl.currentOwnerId a.id,
            changedByUserId := userId } (time 3)
        let db5 := createNotifS db4
          { userId := a.id, title := "New Lead Assigned",
            message := "Lead " ++ lead1name ++ " has been forwarded from HR",
            ntype := "lead_assignment", relatedLeadId := some lid }
        (RouteResult.ok, db5, [db1, db2, db3, db4, db5])
    else if userRole = "accounts" then
      match getUsersByRole db2 "admin" with
      | [] => (RouteResult.ok, db2, [db1, db2])
      | a :: _ =>
        let db3 := (updateLeadS db2 lid (handoffUpdates a.id "completed") (time 2)).1
        let db4 := createLeadHistoryS db3
          { leadId := lid, fromUserId := cl.currentOwnerId, toUserId := some a.id,
            previousStatus := some "completed", newStatus := some "completed",
            changeReason := some "Lead completed by Accounts and forwarded to Admin",
            changeData := ChangeData.handoff "Accounts_to_Admin" cl.currentOwnerId a.id,
            changedByUserId := userId } (time 3)
        let db5 := createNotifS db4
          { userId := a.id, title := "Completed Lead Assigned",
            message := "Lead " ++ lead1name ++ " has been completed by Accounts and assigned to you",
            ntype := "lead_assignment", relatedLeadId := some lid }
        (RouteResult.ok, db5, [db1, db2, db3, db4, db5])
    else (RouteResult.ok, db2, [db1, db2])
  else (RouteResult.ok, db2, [db1, db2])

/-- The PUT /api/leads/:id handler (registerRoutes).  Returns the
response, the final database state, and the trace of committed states:
every storage call of this handler runs as its own implicit transaction
(none of them share a db.transaction), so each call's result is a
visible committed state. -/
def updateLeadRoute (db : DB) (userId : String) (lid : Nat) (b : Body)
    (time : Nat → Nat) : RouteResult × DB × List DB :=
  let userRole := ((getUser db userId).map (fun u => u.role)).getD "hr"
  match routeParse userRole b with
  | Except.error m => (RouteResult.badRequest m, db, [])
  | Except.ok u =>
    match getLead db lid with
    | none => (RouteResult.notFound, db, [])
    | some cl =>
      if userRole = "accounts" ∧ cl.currentOwnerId ≠ some userId then
        (RouteResult.forbidden, db, [])
      else if userRole = "hr" ∧ cl.currentOwnerId ≠ some userId then
        (RouteResult.forbidden, db, [])
      else
        let r1 := updateLeadS db lid u (time 0)
        let db1 := r1.1
        let lead1name := (match r1.2 with
          | some l => (match l.name with | some n => n | none => "null")
          | none => "undefined")
        match u.status with
        | some s =>
          if s ≠ cl.status then
            statusBranch db1 cl u s userRole userId lid lead1name time
          else nonStatusBranch db1 cl u userId lid (time 1)
        | none => nonStatusBranch db1 cl u userId lid (time 1)

/-! ### DELETE /api/leads/:id: release (HR branch) and destroy
(manager/admin branch) -/

/-- DatabaseStorage.unassignLeadWithHistory: one db.transaction that
inserts the history entry first, then sets currentOwnerId to null and
resets the status to new.  Atomic: the whole function is a single state
transition. -/
def unassignLeadWithHistory (db : DB) (lid : Nat) (h : HistoryInput) (t : Nat) : DB :=
  let db1 := createLeadHistoryS db h t
  { db1 with
    leads := db1.leads.map (fun l =>
      if l.id = lid then { l with currentOwnerId := none, status := "new", updatedAt := t }
      else l) }

/-- DatabaseStorage.deleteLeadWithHistory: one db.transaction that
inserts the final history entry, then deletes every lead_history row of
the lead (the foreign key would otherwise block the lead delete; the
filter also removes the entry just inserted, whose leadId is this lead),
then deletes the lead row. -/
def deleteLeadWithHistory (db : DB) (lid : Nat) (h : HistoryInput) (t : Nat) : DB :=
  let db1 := createLeadHistoryS db h t
  let db2 := { db1 with history := db1.history.filter (fun e => e.leadId ≠ lid) }
  { db2 with leads := db2.leads.filter (fun l => l.id ≠ lid) }

/-- The DELETE /api/leads/:id handler (registerRoutes): after the role
checks, an HR owner releases the lead (unassign with history) while a
manager or admin hard-deletes it (delete with history).  t models the
wall clock of the request (new Date() and the storage timestamps). -/
def deleteLeadRoute (db : DB) (userId : String) (lid : Nat) (t : Nat) : RouteResult × DB :=
  let userRole := ((getUser db userId).map (fun u => u.role)).getD "hr"
  match getLead db lid with
  | none => (RouteResult.notFound, db)
  | some cl =>
    if userRole = "hr" ∧ cl.currentOwnerId ≠ some userId then (RouteResult.forbidden, db)
    else if userRole = "accounts" then (RouteResult.forbidden, db)
    else if userRole = "hr" ∧ cl.currentOwnerId = some userId then
      (RouteResult.ok,
       unassignLeadWithHistory db lid
         { leadId := lid, fromUserId := cl.currentOwnerId, toUserId := none,
           previousStatus := some cl.status, newStatus := some "new",
           changeReason := some "Lead released by HR - returned to Lead Management",
           changeData := ChangeData.unassigned cl.currentOwnerId userId t,
           changedByUserId := userId } t)
    else
      (RouteResult.ok,
       deleteLeadWithHistory db lid
         { leadId := lid, fromUserId := cl.currentOwnerId, toUserId := none,
           previousStatus := some cl.status, newStatus := some cl.status,
           changeReason := some "Lead deleted",
           changeData := ChangeData.deleted cl userId t,
           changedByUserId := userId } t)

/-! ### The claim flow (POST /api/leads/:id/assign, HR self-assignment)
under concurrency

A claim call is an HR worker posting to /api/leads/:id/assign with no
toUserId (target defaults to the caller).  The handler runs a pre-check
outside any transaction (getLead; 409 when currentOwnerId is set), then
DatabaseStorage.assignLead opens a db.transaction that
(1) reads the lead row, deciding the branch from the owner it sees
    (conditional self-assign when the read saw no owner, otherwise the
    unconditional overwrite branch), and
(2) commits: the conditional update re-evaluates "currentOwnerId is
    null" against the committed state at commit time (Postgres read
    committed re-checks the where clause after the row lock), writing
    the owner and the history row on success and rolling back with the
    already-assigned error on failure; the unconditional branch writes
    owner and history regardless.

Each of the three observation points sees the committed state of its
moment, so a concurrent execution of several claim calls is an
interleaving of these per-call events.  The manager/admin reassignment
flow of the same endpoint is not a claim and is outside this model
(a non-hr caller of the modelled flow is rejected like the accounts
branch of the handler). -/

/-- Outcome of one claim call, as the route reports it. -/
inductive ClaimOutcome where
  | success
  | conflict409
  | notFound404
  | forbidden403
deriving DecidableEq, Repr

/-- Progress of one claim call: not started; route pre-check passed;
transaction read done (the owner and status it saw are captured, the
branch is a function of the owner); finished. -/
inductive CallPhase where
  | start
  | preOk
  | branchChosen (prevOwner : Option String) (prevStatus : String)
  | done (r : ClaimOutcome)
deriving DecidableEq, Repr

/-- The writes of assignLead's committing statement: set the owner and
insert the assignment history row (fromUserId is the owner captured by
the transaction read). -/
def commitAssign (db : DB) (lid : Nat) (prevOwner : Option String) (prevStatus : String)
    (w : String) (t : Nat) : DB :=
  let db1 := { db with
    leads := db.leads.map (fun l =>
      if l.id = lid then { l with currentOwnerId := some w, updatedAt := t } else l) }
  createLeadHistoryS db1
    { leadId := lid, fromUserId := prevOwner, toUserId := some w,
      previousStatus := some prevStatus, newStatus := some prevStatus,
      changeReason := some "Lead assigned",
      changeData := ChangeData.assignment prevOwner w, changedByUserId := w } t

/-- Advance one claim call (worker w, self-assigning lead lid) by one
event against the committed state db at time t. -/
def claimEvent (db : DB) (p : CallPhase) (w : String) (lid : Nat) (t : Nat) :
    DB × CallPhase :=
  match p with
  | CallPhase.start =>
    -- route pre-check: user lookup, role gate, lead lookup, owner gate
    (match getUser db w with
     | none => (db, CallPhase.done ClaimOutcome.forbidden403)
     | some cu =>
       if cu.role = "hr" then
         match getLead db lid with
         | none => (db, CallPhase.done ClaimOutcome.notFound404)
         | some l =>
           match l.currentOwnerId with
           | some _ => (db, CallPhase.done ClaimOutcome.conflict409)
           | none => (db, CallPhase.preOk)
       else (db, CallPhase.done ClaimOutcome.forbidden403))
  | CallPhase.preOk =>
    -- assignLead's transaction read
    (match getLead db lid with
     | none => (db, CallPhase.done ClaimOutcome.notFound404)
     | some l => (db, CallPhase.branchChosen l.currentOwnerId l.status))
  | CallPhase.branchChosen prevOwner prevStatus =>
    -- assignLead's committing statement
    (if prevOwner = none then
      -- conditional branch: where currentOwnerId is null, re-evaluated now
      match getLead db lid with
      | some l =>
        if l.currentOwnerId = none then
          (commitAssign db lid prevOwner prevStatus w t, CallPhase.done ClaimOutcome.success)
        else (db, CallPhase.done ClaimOutcome.conflict409)
      | none => (db, CallPhase.done ClaimOutcome.conflict409)
    else
      -- unconditional overwrite branch
      (commitAssign db lid prevOwner prevStatus w t, CallPhase.done ClaimOutcome.success))
  | CallPhase.done r => (db, CallPhase.done r)

/-- State of a concurrent execution: the committed database and each
call's phase. -/
structure ConcState where
  db : DB
  phases : List CallPhase
deriving DecidableEq, Repr

/-- One scheduled event: advance call i. -/
def concStep (workers : List String) (lid : Nat) (s : ConcState) (i : Nat) (t : Nat) :
    ConcState :=
  match workers.get? i, s.phases.get? i with
  | some w, some p =>
    let r := claimEvent s.db p w lid t
    { db := r.1, phases := s.phases.set i r.2 }
  | _, _ => s

/-- Run a schedule of events (each entry names the call to advance; the
event index serves as the clock) over N concurrent claim calls, from an
initial committed state. -/
def runSchedule (db : DB) (workers : List String) (lid : Nat) (sched : List Nat) : ConcState :=
  (sched.enum.foldl (fun s it => concStep workers lid s it.2 it.1)
    { db := db, phases := workers.map (fun _ => CallPhase.start) })

/-- A single claim call run to completion with no interleaving: the
sequential semantics of the claim flow. -/
def claimCallSeq (db : DB) (w : String) (lid : Nat) : ConcState :=
  runSchedule db [w] lid [0, 0, 0]

/-! ### Helper lemmas about the storage operations -/

@[simp]
theorem users_updateLeadS (db : DB) (lid : Nat) (u : Updates) (t : Nat) :
    ((updateLeadS db lid u t).1).users = db.users := rfl

@[simp]
theorem history_updateLeadS (db : DB) (lid : Nat) (u : Updates) (t : Nat) :
    ((updateLeadS db lid u t).1).history = db.history := rfl

@[simp]
theorem notifs_updateLeadS (db : DB) (lid : Nat) (u : Updates) (t : Nat) :
    ((updateLeadS db lid u t).1).notifs = db.notifs := rfl

@[simp]
theorem nextHistoryId_updateLeadS (db : DB) (lid : Nat) (u : Updates) (t : Nat) :
    ((updateLeadS db lid u t).1).nextHistoryId = db.nextHistoryId := rfl

@[simp]
theorem users_createLeadHistoryS (db : DB) (h : HistoryInput) (t : Nat) :
    (createLeadHistoryS db h t).users = db.users := rfl

@[simp]
theorem leads_createLeadHistoryS (db : DB) (h : HistoryInput) (t : Nat) :
    (createLeadHistoryS db h t).leads = db.leads := rfl

@[simp]
theorem notifs_createLeadHistoryS (db : DB) (h : HistoryInput) (t : Nat) :
    (createLeadHistoryS db h t).notifs = db.notifs := rfl

@[simp]
theorem history_createLeadHistoryS (db : DB) (h : HistoryInput) (t : Nat) :
    (createLeadHistoryS db h t).history = db.history ++
      [{ id := db.nextHistoryId, leadId := h.leadId, fromUserId := h.fromUserId,
         toUserId := h.toUserId, previousStatus := h.previousStatus,
         newStatus := h.newStatus, changeReason := h.changeReason,
         changeData := h.changeData, changedByUserId := h.changedByUserId,
         changedAt := t }] := rfl

@[simp]
theorem nextHistoryId_createLeadHistoryS (db : DB) (h : HistoryInput) (t : Nat) :
    (createLeadHistoryS db h t).nextHistoryId = db.nextHistoryId + 1 := rfl

@[simp]
theorem users_createNotifS (db : DB) (n : Notif) : (createNotifS db n).users = db.users := rfl

@[simp]
theorem leads_createNotifS (db : DB) (n : Notif) : (createNotifS db n).leads = db.leads := rfl

@[simp]
theorem history_createNotifS (db : DB) (n : Notif) :
    (createNotifS db n).history = db.history := rfl

@[simp]
theorem getLead_createLeadHistoryS (db : DB) (h : HistoryInput) (t : Nat) (lid : Nat) :
    getLead (createLeadHistoryS db h t) lid = getLead db lid := rfl

@[simp]
theorem getLead_createNotifS (db : DB) (n : Notif) (lid : Nat) :
    getLead (createNotifS db n) lid = getLead db lid := rfl

@[simp]
theorem getUsersByRole_updateLeadS (db : DB) (lid : Nat) (u : Updates) (t : Nat) (r : String) :
    getUsersByRole (updateLeadS db lid u t).1 r = getUsersByRole db r := rfl

@[simp]
theorem getUsersByRole_createLeadHistoryS (db : DB) (h : HistoryInput) (t : Nat) (r : String) :
    getUsersByRole (createLeadHistoryS db h t) r = getUsersByRole db r := rfl

/-- find? over a map that patches exactly the rows matching the searched
id, where the patch preserves the id. -/
theorem find?_map_patch (ls : List Lead) (lid : Nat) (g : Lead → Lead)
    (hg : ∀ l, (g l).id = l.id) :
    (ls.map (fun l => if l.id = lid then g l else l)).find? (fun l => l.id == lid)
      = (ls.find? (fun l => l.id == lid)).map g := by
  induction ls with
  | nil => rfl
  | cons a tl ih =>
    by_cases h : a.id = lid
    · simp [List.find?_cons, h, hg]
    · simp [List.find?_cons, h, hg, ih]

@[simp]
theorem getLead_updateLeadS (db : DB) (lid : Nat) (u : Updates) (t : Nat) :
    getLead (updateLeadS db lid u t).1 lid
      = (getLead db lid).map (fun l => applyUpdates l u t) := by
  unfold getLead updateLeadS
  exact find?_map_patch db.leads lid _ (fun l => rfl)

@[simp]
theorem getLead_unassignLeadWithHistory (db : DB) (lid : Nat) (h : HistoryInput) (t : Nat) :
    getLead (unassignLeadWithHistory db lid h t) lid
      = (getLead db lid).map
          (fun l => { l with currentOwnerId := none, status := "new", updatedAt := t }) := by
  unfold getLead unassignLeadWithHistory
  exact find?_map_patch db.leads lid _ (fun l => rfl)

@[simp]
theorem history_unassignLeadWithHistory (db : DB) (lid : Nat) (h : HistoryInput) (t : Nat) :
    (unassignLeadWithHistory db lid h t).history
      = db.history ++
        [{ id := db.nextHistoryId, leadId := h.leadId, fromUserId := h.fromUserId,
           toUserId := h.toUserId, previousStatus := h.previousStatus,
           newStatus := h.newStatus, changeReason := h.changeReason,
           changeData := h.changeData, changedByUserId := h.changedByUserId,
           changedAt := t }] := rfl

/-! ### Concrete states used by the evaluation theorems -/

/-- Two active HR workers and one unowned lead in status "new". -/
def dbClaim : DB :=
  { users := [{ id := "A", role := "hr", isActive := true },
              { id := "B", role := "hr", isActive := true }],
    leads := [{ id := 1 }],
    history := [], notifs := [], nextHistoryId := 0 }

/-- Number of calls of a finished concurrent execution that succeeded. -/
def successCount (s : ConcState) : Nat :=
  (s.phases.filter (fun p => p == CallPhase.done ClaimOutcome.success)).length

/-- Claim C1: for N concurrent claim calls on one unowned record, exactly
one call succeeds, the rest get the owner conflict, and exactly one
claim history entry exists; the protocol is a single atomic conditional
write, never a read followed by a write.  The code violates this: worker
A's and worker B's claim calls on the unowned lead 1, interleaved so
that A's transaction runs to commit between B's route pre-check and B's
transaction read (schedule pre-A, pre-B, read-A, commit-A, read-B,
commit-B), BOTH succeed: B's transaction read sees the owner A already
committed, so assignLead's isHRSelfAssign test fails and B runs the
unconditional-overwrite branch meant for manager reassignments,
overwriting the owner and writing a second assignment history row.  The
schedule in which both transaction reads precede the first commit shows
the intended behaviour (one success, one OwnerConflict, one entry), so
the guard is reachable yet bypassable — contradicting the code's own
comments ("use atomic update with condition to prevent race conditions",
"Use atomic assignment with concurrency protection"). -/
theorem C1_claim_race_two_winners :
    successCount (runSchedule dbClaim ["A", "B"] 1 [0, 1, 0, 0, 1, 1]) = 2 ∧
    (historyForLead (runSchedule dbClaim ["A", "B"] 1 [0, 1, 0, 0, 1, 1]).db 1).length = 2 ∧
    (getLead (runSchedule dbClaim ["A", "B"] 1 [0, 1, 0, 0, 1, 1]).db 1).map
        Lead.currentOwnerId = some (some "B") ∧
    (runSchedule dbClaim ["A", "B"] 1 [0, 1, 0, 1, 0, 1]).phases
      = [CallPhase.done ClaimOutcome.success, CallPhase.done ClaimOutcome.conflict409] := by
  decide

/-- Claim C2: a claim call (an HR worker self-assigning) on a record
whose owner is already set fails with the owner conflict and writes
nothing: the route pre-check returns 409 before assignLead runs, so the
record's owner, status and history are untouched. -/
theorem C2_claim_on_owned_conflict (db : DB) (w : String) (lid : Nat)
    (cu : User) (l : Lead) (o : String)
    (h1 : getUser db w = some cu) (h2 : cu.role = "hr")
    (h3 : getLead db lid = some l) (h4 : l.currentOwnerId = some o) :
    claimCallSeq db w lid
      = { db := db, phases := [CallPhase.done ClaimOutcome.conflict409] } := by
  simp [claimCallSeq, runSchedule, List.enum, concStep, claimEvent, h1, h2, h3, h4]

/-- Lead 1, owned by worker A, in status "active". -/
def leadOwned : Lead :=
  { id := 1, name := some "Alice", status := "active",
    currentOwnerId := some "A", yearOfPassing := some "2019" }

/-- A state with an owned lead: worker A (hr) owns lead 1; an accounts
worker acc1 is active. -/
def dbOwned : DB :=
  { users := [{ id := "A", role := "hr", isActive := true },
              { id := "B", role := "hr", isActive := true },
              { id := "acc1", role := "accounts", isActive := true }],
    leads := [leadOwned],
    history := [], notifs := [], nextHistoryId := 0 }

/-- Witness for C2: worker B claiming the lead owned by A gets the
conflict and the state is unchanged. -/
theorem C2_claim_on_owned_conflict_witness :
    claimCallSeq dbOwned "B" 1
      = { db := dbOwned, phases := [CallPhase.done ClaimOutcome.conflict409] } :=
  C2_claim_on_owned_conflict dbOwned "B" 1
    { id := "B", role := "hr", isActive := true } leadOwned "A"
    (by decide) rfl (by decide) rfl

/-- The body of a status-only update: { status: "completed" } with an
optional changeReason. -/
def statusBody (rc : Option String) : Body :=
  { status := some "completed", changeReason := rc }

/-- Claim C3: an update by the hr owner of a record that sets the status
to "completed", when at least one active accounts worker exists, ends
with the first active accounts worker as owner and status forced to
"pending", and appends exactly two history entries: the status change
(owner as both fromUser and toUser, previous status to "completed"),
then the hand-off entry ("completed" to "pending", owner changed,
changeData recording the HR-to-Accounts hand-off). -/
theorem C3_hr_completed_handoff (db : DB) (userId : String) (lid : Nat)
    (rc : Option String) (time : Nat → Nat) (cu : User) (l : Lead) (b : User)
    (bs : List User)
    (h1 : getUser db userId = some cu) (h2 : cu.role = "hr")
    (h3 : getLead db lid = some l) (h4 : l.currentOwnerId = some userId)
    (h5 : l.status ≠ "completed")
    (h6 : getUsersByRole db "accounts" = b :: bs) :
    (updateLeadRoute db userId lid (statusBody rc) time).1 = RouteResult.ok ∧
    getLead (updateLeadRoute db userId lid (statusBody rc) time).2.1 lid
      = some { l with currentOwnerId := some b.id, status := "pending",
                      isActive := true, updatedAt := time 2 } ∧
    (updateLeadRoute db userId lid (statusBody rc) time).2.1.history
      = db.history ++
        [{ id := db.nextHistoryId, leadId := lid, fromUserId := some userId,
           toUserId := some userId, previousStatus := some l.status,
           newStatus := some "completed",
           changeReason := some (jsOr rc "Status updated"),
           changeData := ChangeData.statusUpdate
             { status := some "completed", changeReason := rc },
           changedByUserId := userId, changedAt := time 1 },
         { id := db.nextHistoryId + 1, leadId := lid, fromUserId := some userId,
           toUserId := some b.id, previousStatus := some "completed",
           newStatus := some "pending",
           changeReason := some "Lead completed by HR and forwarded to Accounts team",
           changeData := ChangeData.handoff "HR_to_Accounts" (some userId) b.id,
           changedByUserId := userId, changedAt := time 3 }] := by
  have h5' : ¬("completed" = l.status) := fun h => h5 h.symm
  simp [updateLeadRoute, routeParse, stripToBase, zodBaseOk, optOk, statusEnum,
        parseAmount, statusBody, statusBranch, h1, h2, h3, h4, h5', h6,
        applyUpdates, setRaw, setSan, setAmtSan, setAmtRaw, handoffUpdates, jsOr]

/-- Witness for C3 at a concrete state. -/
theorem C3_hr_completed_handoff_witness :
    (updateLeadRoute dbOwned "A" 1 (statusBody (some "done")) (fun i => i)).1
      = RouteResult.ok ∧
    getLead (updateLeadRoute dbOwned "A" 1 (statusBody (some "done")) (fun i => i)).2.1 1
      = some { leadOwned with currentOwnerId := some "acc1", status := "pending",
                              isActive := true, updatedAt := 2 } ∧
    (updateLeadRoute dbOwned "A" 1 (statusBody (some "done")) (fun i => i)).2.1.history
      = dbOwned.history ++
        [{ id := 0, leadId := 1, fromUserId := some "A", toUserId := some "A",
           previousStatus := some "active", newStatus := some "completed",
           changeReason := some "done",
           changeData := ChangeData.statusUpdate
             { status := some "completed", changeReason := some "done" },
           changedByUserId := "A", changedAt := 1 },
         { id := 1, leadId := 1, fromUserId := some "A", toUserId := some "acc1",
           previousStatus := some "completed", newStatus := some "pending",
           changeReason := some "Lead completed by HR and forwarded to Accounts team",
           changeData := ChangeData.handoff "HR_to_Accounts" (some "A") "acc1",
           changedByUserId := "A", changedAt := 3 }] := by
  have h := C3_hr_completed_handoff dbOwned "A" 1 (some "done") (fun i => i)
    { id := "A", role := "hr", isActive := true } leadOwned
    { id := "acc1", role := "accounts", isActive := true } []
    (by decide) rfl (by decide) rfl (by decide) (by decide)
  simpa [leadOwned, jsOr, dbOwned] using h

/-- Claim C4, amended: the status-change write, the two history inserts
and the hand-off reassignment of the PUT handler are NOT one atomic
transaction; they run as five separate storage calls (record update,
primary history insert, hand-off record update, hand-off history
insert, notification insert), each committing on its own, so a state in
which the record already has the new status but neither history entry
exists is visible between the first and second commit; only the final
state carries all the writes. -/
theorem C4_handoff_five_separate_commits (db : DB) (userId : String) (lid : Nat)
    (rc : Option String) (time : Nat → Nat) (cu : User) (l : Lead) (b : User)
    (bs : List User)
    (h1 : getUser db userId = some cu) (h2 : cu.role = "hr")
    (h3 : getLead db lid = some l) (h4 : l.currentOwnerId = some userId)
    (h5 : l.status ≠ "completed")
    (h6 : getUsersByRole db "accounts" = b :: bs) :
    (updateLeadRoute db userId lid (statusBody rc) time).2.2.length = 5 ∧
    (∃ d, (updateLeadRoute db userId lid (statusBody rc) time).2.2.head? = some d ∧
      d.history = db.history ∧
      getLead d lid = some { l with status := "completed", updatedAt := time 0 }) ∧
    (updateLeadRoute db userId lid (statusBody rc) time).2.1.history.length
      = db.history.length + 2 := by
  have h5' : ¬("completed" = l.status) := fun h => h5 h.symm
  simp [updateLeadRoute, routeParse, stripToBase, zodBaseOk, optOk, statusEnum,
        parseAmount, statusBody, statusBranch, h1, h2, h3, h4, h5', h6,
        applyUpdates, setRaw, setSan, setAmtSan, setAmtRaw, handoffUpdates]

/-- Witness for the amended C4 at a concrete state. -/
theorem C4_handoff_five_separate_commits_witness :
    (updateLeadRoute dbOwned "A" 1 (statusBody (some "done")) (fun i => i)).2.2.length = 5 ∧
    (∃ d, (updateLeadRoute dbOwned "A" 1 (statusBody (some "done")) (fun i => i)).2.2.head?
        = some d ∧
      d.history = dbOwned.history ∧
      getLead d 1 = some { leadOwned with status := "completed", updatedAt := 0 }) ∧
    (updateLeadRoute dbOwned "A" 1 (statusBody (some "done")) (fun i => i)).2.1.history.length
      = dbOwned.history.length + 2 := by
  have h := C4_handoff_five_separate_commits dbOwned "A" 1 (some "done") (fun i => i)
    { id := "A", role := "hr", isActive := true } leadOwned
    { id := "acc1", role := "accounts", isActive := true } []
    (by decide) rfl (by decide) rfl (by decide) (by decide)
  simpa [leadOwned, dbOwned] using h

/-- Counterexample to C4 as stated: on the concrete hand-off run, the
claim "either every write of the update is visible or none is" fails —
the trace of committed states contains a state that is neither the
initial nor the final one (the record update has committed, the history
entries have not). -/
theorem C4_atomicity_counterexample :
    ¬ (∀ d ∈ (updateLeadRoute dbOwned "A" 1 (statusBody (some "done")) (fun i => i)).2.2,
        d = dbOwned ∨
        d = (updateLeadRoute dbOwned "A" 1 (statusBody (some "done")) (fun i => i)).2.1) := by
  decide

/-- Claim C5, amended: a restricted field submitted by a non-elevated
actor is silently stripped by the zod schema (default non-strict object
parsing), not rejected: the call succeeds, no ValidationError is
returned, the restricted field is not applied (the record is unchanged
except for updatedAt) and no history entry is written. -/
theorem C5_restricted_field_stripped (db : DB) (userId : String) (lid : Nat)
    (x : String) (time : Nat → Nat) (cu : User) (l : Lead)
    (h1 : getUser db userId = some cu) (h2 : cu.role = "hr")
    (h3 : getLead db lid = some l) (h4 : l.currentOwnerId = some userId) :
    (updateLeadRoute db userId lid { name := some x } time).1 = RouteResult.ok ∧
    getLead (updateLeadRoute db userId lid { name := some x } time).2.1 lid
      = some { l with updatedAt := time 0 } ∧
    (updateLeadRoute db userId lid { name := some x } time).2.1.history = db.history := by
  simp [updateLeadRoute, routeParse, stripToBase, zodBaseOk, optOk, parseAmount,
        nonStatusBranch, computeChangedFields, diffField, h1, h2, h3, h4,
        applyUpdates, setRaw, setSan, setAmtSan, setAmtRaw]

/-- Witness for the amended C5 at a concrete state. -/
theorem C5_restricted_field_stripped_witness :
    (updateLeadRoute dbOwned "A" 1 { name := some "Bob" } (fun i => i)).1
      = RouteResult.ok ∧
    getLead (updateLeadRoute dbOwned "A" 1 { name := some "Bob" } (fun i => i)).2.1 1
      = some { leadOwned with updatedAt := 0 } ∧
    (updateLeadRoute dbOwned "A" 1 { name := some "Bob" } (fun i => i)).2.1.history
      = dbOwned.history := by
  have h := C5_restricted_field_stripped dbOwned "A" 1 "Bob" (fun i => i)
    { id := "A", role := "hr", isActive := true } leadOwned
    (by decide) rfl (by decide) rfl
  simpa using h

/-- Counterexample to C5 as stated: the hr owner of lead 1 submits the
restricted field name; the claim says the call fails with a
ValidationError, but the call returns 200, the stored name is untouched
(the field was stripped, not applied) and nothing was logged. -/
theorem C5_validation_error_counterexample :
    (updateLeadRoute dbOwned "A" 1 { name := some "Bob" } (fun i => i)).1
      = RouteResult.ok ∧
    (updateLeadRoute dbOwned "A" 1 { name := some "Bob" } (fun i => i)).1
      ≠ RouteResult.badRequest "Invalid request body" ∧
    (getLead (updateLeadRoute dbOwned "A" 1 { name := some "Bob" } (fun i => i)).2.1 1).map
        Lead.name = some (some "Alice") ∧
    (updateLeadRoute dbOwned "A" 1 { name := some "Bob" } (fun i => i)).2.1.history = [] := by
  decide

/-- Claim C6, amended: the destroy of an existing record writes the
terminal history entry and then, in the same transaction, deletes EVERY
lead_history row of the record — including the terminal entry it has
just written, because the foreign key from lead_history.leadId to the
lead would otherwise block the lead delete — and then the record
itself.  After a destroy by a manager, no history entry of the record
remains (entries of other records are untouched). -/
theorem C6_destroy_removes_all_history (db : DB) (userId : String) (lid : Nat)
    (t : Nat) (cu : User) (l : Lead)
    (h1 : getUser db userId = some cu) (h2 : cu.role = "manager")
    (h3 : getLead db lid = some l) :
    (deleteLeadRoute db userId lid t).1 = RouteResult.ok ∧
    (deleteLeadRoute db userId lid t).2.history
      = db.history.filter (fun e => e.leadId ≠ lid) ∧
    (deleteLeadRoute db userId lid t).2.leads
      = db.leads.filter (fun le => le.id ≠ lid) := by
  simp [deleteLeadRoute, deleteLeadWithHistory, createLeadHistoryS, h1, h2, h3]

/-- A state with a manager M and a prior history entry for lead 1. -/
def dbMgr : DB :=
  { users := [{ id := "A", role := "hr", isActive := true },
              { id := "M", role := "manager", isActive := true }],
    leads := [leadOwned],
    history := [{ id := 0, leadId := 1, fromUserId := none, toUserId := some "A",
                  previousStatus := some "new", newStatus := some "new",
                  changeReason := some "Lead assigned",
                  changeData := ChangeData.assignment none "A",
                  changedByUserId := "A", changedAt := 1 }],
    notifs := [], nextHistoryId := 1 }

/-- Witness for the amended C6 at a concrete state. -/
theorem C6_destroy_removes_all_history_witness :
    (deleteLeadRoute dbMgr "M" 1 9).1 = RouteResult.ok ∧
    (deleteLeadRoute dbMgr "M" 1 9).2.history
      = dbMgr.history.filter (fun e => e.leadId ≠ 1) ∧
    (deleteLeadRoute dbMgr "M" 1 9).2.leads
      = dbMgr.leads.filter (fun le => le.id ≠ 1) :=
  C6_destroy_removes_all_history dbMgr "M" 1 9
    { id := "M", role := "manager", isActive := true } leadOwned
    (by decide) rfl (by decide)

/-- Counterexample to C6 as stated: after the manager destroys lead 1,
the claim says the terminal AuditEntry still exists and documents the
destroyed record in its changeData; in fact the history of the store is
empty — the terminal entry was deleted in the same transaction that
wrote it. -/
theorem C6_terminal_entry_gone_counterexample :
    (deleteLeadRoute dbMgr "M" 1 9).1 = RouteResult.ok ∧
    (deleteLeadRoute dbMgr "M" 1 9).2.history = [] ∧
    ¬ (∃ e ∈ (deleteLeadRoute dbMgr "M" 1 9).2.history,
        e.changeData = ChangeData.deleted leadOwned "M" 9) := by
  decide

/-! ### Claim C7: ordering of history(recordId) -/

/-- The outputs DatabaseStorage.getLeadHistory may return: the query
selects every lead_history row of the lead ordered by changedAt
descending and nothing else, so a valid output is any permutation of
the record's entries that is non-increasing in changedAt (Postgres
gives no guarantee on the relative order of equal keys). -/
def historyOutputValid (db : DB) (lid : Nat) (out : List HistoryEntry) : Prop :=
  out.Perm (historyForLead db lid) ∧
  out.Sorted (fun a b => b.changedAt ≤ a.changedAt)

/-- The hand-off run of dbOwned with both storage timestamps equal
(nothing prevents two consecutive defaultNow() values from coinciding):
its two history entries share changedAt. -/
def dbTie : DB :=
  (updateLeadRoute dbOwned "A" 1 (statusBody (some "done")) (fun _ => 5)).2.1

/-- Counterexample to C7 as stated: the claim promises a stable total
order by a monotonically increasing sequence counter, newest first,
reflecting true mutation order.  On a record whose two entries carry
equal timestamps, the insertion-ordered list is a valid output of the
query (it is a permutation sorted by changedAt descending) yet it lists
the OLDER entry (smaller generated id) first — the query orders by
changedAt only and never by the id column, so equal-timestamp entries
are not distinguishable in order. -/
theorem C7_sequence_order_counterexample :
    historyOutputValid dbTie 1 (historyForLead dbTie 1) ∧
    ¬ List.Sorted (fun a b => b.id < a.id) (historyForLead dbTie 1) := by
  constructor
  · exact ⟨List.Perm.refl _, by decide⟩
  · decide

/-- Claim C7, amended: history(recordId) returns all entries of the
record ordered newest-first by the changedAt timestamp ONLY; there is
no sequence-counter tiebreaker, so entries with equal timestamps are
returned in an unspecified relative order.  When the record's
timestamps are pairwise distinct the output is uniquely determined. -/
theorem C7_order_unique_of_distinct_times (db : DB) (lid : Nat)
    (out1 out2 : List HistoryEntry)
    (hinj : ∀ a ∈ historyForLead db lid, ∀ b ∈ historyForLead db lid,
      a.changedAt = b.changedAt → a = b)
    (h1 : historyOutputValid db lid out1) (h2 : historyOutputValid db lid out2) :
    out1 = out2 := by
  have hperm : out1.Perm out2 := h1.1.trans h2.1.symm
  refine List.Perm.eq_of_sorted (fun a b ha hb hab hba => ?_) h1.2 h2.2 hperm
  have ha' : a ∈ historyForLead db lid := h1.1.subset ha
  have hb' : b ∈ historyForLead db lid := h2.1.subset hb
  exact hinj a ha' b hb' (Nat.le_antisymm hba hab)

/-- The hand-off run of dbOwned with strictly increasing timestamps. -/
def dbDistinct : DB :=
  (updateLeadRoute dbOwned "A" 1 (statusBody (some "done")) (fun i => i)).2.1

/-- Witness for the amended C7: with distinct timestamps, the
newest-first list is the unique valid output. -/
theorem C7_order_unique_of_distinct_times_witness :
    (historyForLead dbDistinct 1).reverse = (historyForLead dbDistinct 1).reverse :=
  C7_order_unique_of_distinct_times dbDistinct 1
    (historyForLead dbDistinct 1).reverse (historyForLead dbDistinct 1).reverse
    (by decide) ⟨by decide, by decide⟩ ⟨by decide, by decide⟩

/-- Claim C9: a release (the hr owner deleting their own lead) clears
the owner to null, resets the status to the initial "new", and writes
exactly one history entry recording the unassignment, with the history
insert and the record update inside one transaction
(unassignLeadWithHistory is a single db.transaction, modelled as one
atomic state transition). -/
theorem C9_release_clears_owner (db : DB) (userId : String) (lid : Nat)
    (t : Nat) (cu : User) (l : Lead)
    (h1 : getUser db userId = some cu) (h2 : cu.role = "hr")
    (h3 : getLead db lid = some l) (h4 : l.currentOwnerId = some userId) :
    (deleteLeadRoute db userId lid t).1 = RouteResult.ok ∧
    getLead (deleteLeadRoute db userId lid t).2 lid
      = some { l with currentOwnerId := none, status := "new", updatedAt := t } ∧
    (deleteLeadRoute db userId lid t).2.history
      = db.history ++
        [{ id := db.nextHistoryId, leadId := lid, fromUserId := some userId,
           toUserId := none, previousStatus := some l.status, newStatus := some "new",
           changeReason := some "Lead released by HR - returned to Lead Management",
           changeData := ChangeData.unassigned (some userId) userId t,
           changedByUserId := userId, changedAt := t }] := by
  simp [deleteLeadRoute, h1, h2, h3, h4]

/-- Witness for C9 at a concrete state. -/
theorem C9_release_clears_owner_witness :
    (deleteLeadRoute dbOwned "A" 1 7).1 = RouteResult.ok ∧
    getLead (deleteLeadRoute dbOwned "A" 1 7).2 1
      = some { leadOwned with currentOwnerId := none, status := "new", updatedAt := 7 } ∧
    (deleteLeadRoute dbOwned "A" 1 7).2.history
      = dbOwned.history ++
        [{ id := 0, leadId := 1, fromUserId := some "A", toUserId := none,
           previousStatus := some "active", newStatus := some "new",
           changeReason := some "Lead released by HR - returned to Lead Management",
           changeData := ChangeData.unassigned (some "A") "A" 7,
           changedByUserId := "A", changedAt := 7 }] := by
  have h := C9_release_clears_owner dbOwned "A" 1 7
    { id := "A", role := "hr", isActive := true } leadOwned
    (by decide) rfl (by decide) rfl
  simpa [leadOwned, dbOwned] using h

/-- Claim C10: an update that sets the status to "completed" when no
active worker of the hand-off target role exists (no active accounts
worker for an hr owner; no active admin worker for an accounts owner)
fires no hand-off: the record keeps its current owner, its status stays
"completed", only the primary status-change entry is written, no
notification is created, and the call still succeeds. -/
theorem C10_no_handoff_target (db : DB) (userId : String) (lid : Nat)
    (rc : Option String) (time : Nat → Nat) (cu : User) (l : Lead)
    (h1 : getUser db userId = some cu)
    (h3 : getLead db lid = some l) (h4 : l.currentOwnerId = some userId)
    (h5 : l.status ≠ "completed")
    (hrole : (cu.role = "hr" ∧ getUsersByRole db "accounts" = []) ∨
             (cu.role = "accounts" ∧ getUsersByRole db "admin" = [])) :
    (updateLeadRoute db userId lid (statusBody rc) time).1 = RouteResult.ok ∧
    getLead (updateLeadRoute db userId lid (statusBody rc) time).2.1 lid
      = some { l with status := "completed", updatedAt := time 0 } ∧
    (updateLeadRoute db userId lid (statusBody rc) time).2.1.history
      = db.history ++
        [{ id := db.nextHistoryId, leadId := lid, fromUserId := some userId,
           toUserId := some userId, previousStatus := some l.status,
           newStatus := some "completed",
           changeReason := some (jsOr rc "Status updated"),
           changeData := ChangeData.statusUpdate
             { status := some "completed", changeReason := rc },
           changedByUserId := userId, changedAt := time 1 }] ∧
    (updateLeadRoute db userId lid (statusBody rc) time).2.1.notifs = db.notifs := by
  have h5' : ¬("completed" = l.status) := fun h => h5 h.symm
  rcases hrole with ⟨hr1, hr2⟩ | ⟨hr1, hr2⟩ <;>
    simp [updateLeadRoute, routeParse, stripToBase, zodBaseOk, optOk, statusEnum,
      parseAmount, statusBody, statusBranch, h1, hr1, h3, h4, h5', hr2,
      applyUpdates, setRaw, setSan, setAmtSan, setAmtRaw]

/-- A state with the hr owner A of lead 1 and no accounts worker. -/
def dbNoAccounts : DB :=
  { users := [{ id := "A", role := "hr", isActive := true },
              { id := "B", role := "hr", isActive := true }],
    leads := [leadOwned],
    history := [], notifs := [], nextHistoryId := 0 }

/-- Witness for C10 at a concrete state. -/
theorem C10_no_handoff_target_witness :
    (updateLeadRoute dbNoAccounts "A" 1 (statusBody (some "done")) (fun i => i)).1
      = RouteResult.ok ∧
    getLead (updateLeadRoute dbNoAccounts "A" 1 (statusBody (some "done"))
        (fun i => i)).2.1 1
      = some { leadOwned with status := "completed", updatedAt := 0 } ∧
    (updateLeadRoute dbNoAccounts "A" 1 (statusBody (some "done")) (fun i => i)).2.1.history
      = dbNoAccounts.history ++
        [{ id := 0, leadId := 1, fromUserId := some "A", toUserId := some "A",
           previousStatus := some "active", newStatus := some "completed",
           changeReason := some "done",
           changeData := ChangeData.statusUpdate
             { status := some "completed", changeReason := some "done" },
           changedByUserId := "A", changedAt := 1 }] ∧
    (updateLeadRoute dbNoAccounts "A" 1 (statusBody (some "done")) (fun i => i)).2.1.notifs
      = dbNoAccounts.notifs := by
  have h := C10_no_handoff_target dbNoAccounts "A" 1 (some "done") (fun i => i)
    { id := "A", role := "hr", isActive := true } leadOwned
    (by decide) (by decide) rfl (by decide) (Or.inl ⟨rfl, by decide⟩)
  simpa [leadOwned, dbNoAccounts, jsOr] using h

end UHRM
